import Mathlib

/-!
A verification development for the crypto-bot subscription repository.

The definitions below are a shallow embedding of the subscription
lifecycle and payment-verification state machine:

* the main revision (server.js): hash shape validation, the transaction
  intake handler, the delayed-trust activation step (processTransaction),
  channel admission (addToChannel), the subscription status projection
  (handleSubscription) and the expiry sweep (cleanup interval);
* the on-chain revision (the unnamed source with TON verification):
  verifyTONTransaction and its TXID message handler with the
  manual-review fallback.

Timestamps are modelled as integer milliseconds.  JS Date#setMonth
calendar arithmetic is abstracted as an explicit addMonths function
argument, universally quantified in the theorems.  Money amounts are
modelled as rationals (the on-chain tolerance check divides nanotons by
1e9 and compares with 0.01).
-/

/-- One character of the hexadecimal alphabet, as in the regex
[a-fA-F0-9] used by both revisions. -/
def isHexChar (c : Char) : Bool :=
  (('a' ≤ c) && (c ≤ 'f')) || (('A' ≤ c) && (c ≤ 'F')) || c.isDigit

/-- JS String#trim: strip leading and trailing whitespace (modelled over
the character list of the string). -/
def jsTrim (text : String) : String :=
  (((text.data.dropWhile Char.isWhitespace).reverse.dropWhile
      Char.isWhitespace).reverse).asString

/-- JS text.startsWith of a one-character slash, the command filter of
the message handlers. -/
def startsWithSlash (text : String) : Bool :=
  match text.data with
  | [] => false
  | c :: _ => c == '/'

/-- JS String#toLowerCase, character by character. -/
def lowerStr (s : String) : String := (s.data.map Char.toLower).asString

/-- server.js validateTxHash: truthy, length 64 and hexadecimal-only
(CONFIG.TX_HASH_LENGTH = 64). -/
def validateTxHash (hash : String) : Bool :=
  (!hash.data.isEmpty) && (hash.data.length == 64) && hash.data.all isHexChar

/-- Milliseconds in a day, 1000 * 60 * 60 * 24 as written in the code. -/
def dayMs : Int := 1000 * 60 * 60 * 24

/-- Integer ceiling division for a positive divisor, the Math.ceil of an
exact quotient: ceil (a / b) = -floor (-a / b), with / the Euclidean
division on Int (floor division for a positive divisor). -/
def ceilDiv (a b : Int) : Int := -((-a) / b)

/-- The pendingPayment subdocument of the main revision:
{ plan, amount, currency, paymentId, createdAt }. -/
structure PendingPayment where
  plan : String
  amount : ℚ
  currency : String
  paymentId : String
  createdAt : Int
deriving DecidableEq, Repr

/-- One element of the transactions array of the main revision:
{ hash, amount, currency, status, verified, timestamp, paymentId }. -/
structure TxRecord where
  hash : String
  amount : ℚ
  currency : String
  status : String
  verified : Bool
  timestamp : Int
  paymentId : String
deriving DecidableEq, Repr

/-- A user document of the main revision (the fields the lifecycle
touches; profile fields are informational only). -/
structure UserDoc where
  userId : Int
  subscription : String
  expiresAt : Option Int
  pendingPayment : Option PendingPayment
  transactions : List TxRecord
deriving DecidableEq, Repr

/-- The store: the collection of user documents. -/
abbrev St : Type := List UserDoc

/-- User.findOne({ userId: chatId }). -/
def findUser (s : St) (uid : Int) : Option UserDoc :=
  s.find? (fun u => u.userId == uid)

/-- User.findOneAndUpdate({ userId }, ...): apply f to every document
with the given userId (userId carries a unique index, so at most one
matches in practice). -/
def updateUser (s : St) (uid : Int) (f : UserDoc → UserDoc) : St :=
  s.map (fun u => if u.userId == uid then f u else u)

/-- User.findOne({ 'transactions.hash': txHash }) is some document:
does any user hold a transaction record with this hash? -/
def hashUsed (s : St) (h : String) : Bool :=
  s.any (fun u => u.transactions.any (fun t => t.hash == h))

/-- server.js calculateExpiry: months = plan === '1month' ? 1 : 3,
expiry = now advanced by that many calendar months.  The calendar
arithmetic of Date#setMonth is abstracted as addMonths. -/
def calculateExpiry (addMonths : Int → Nat → Int) (now : Int) (plan : String) : Int :=
  addMonths now (if plan == "1month" then 1 else 3)

/-- The outcome of the channel-gateway call behind addToChannel: either
the call succeeded, or it threw an error whose description may contain
USER_ALREADY_PARTICIPANT. -/
inductive ChannelResponse where
  | ok : ChannelResponse
  | errorWith (alreadyParticipant : Bool) : ChannelResponse
deriving DecidableEq, Repr

/-- server.js addToChannel: success on a clean call, success when the
caught error is the already-a-participant sentinel, failure otherwise. -/
def addToChannel : ChannelResponse → Bool
  | ChannelResponse.ok => true
  | ChannelResponse.errorWith already => already

/-- The per-submission outcome of processTransaction, distinguishing the
two success notifications (added to channel or manual follow-up). -/
inductive TxOutcome where
  | noPendingPayment : TxOutcome
  | duplicateTransaction : TxOutcome
  | activatedAdded : TxOutcome
  | activatedNoChannel : TxOutcome
deriving DecidableEq, Repr

/-- The update callback of the ledger write in processTransaction:
subscription = plan, expiresAt = calculateExpiry, unset pendingPayment,
push one verified transaction record. -/
def activatedDoc (addMonths : Int → Nat → Int) (now : Int) (txHash : String)
    (pp : PendingPayment) (v : UserDoc) : UserDoc :=
  { v with
    subscription := pp.plan
    expiresAt := some (calculateExpiry addMonths now pp.plan)
    pendingPayment := none
    transactions := v.transactions ++
      [{ hash := txHash, amount := pp.amount, currency := pp.currency,
         status := "verified", verified := true, timestamp := now,
         paymentId := pp.paymentId }] }

/-- server.js processTransaction(chatId, txHash): look the user up; no
user or no pendingPayment fails (NO PENDING PAYMENT FOUND); a hash
already recorded for any user fails (TRANSACTION ALREADY PROCESSED);
otherwise perform the unconditional ledger write, then call
addToChannel, whose result only selects the notification. -/
def processTransaction (addMonths : Int → Nat → Int) (now : Int)
    (channel : ChannelResponse) (s : St) (chatId : Int) (txHash : String) :
    St × TxOutcome :=
  match findUser s chatId with
  | none => (s, TxOutcome.noPendingPayment)
  | some u =>
    match u.pendingPayment with
    | none => (s, TxOutcome.noPendingPayment)
    | some pp =>
      if hashUsed s txHash then (s, TxOutcome.duplicateTransaction)
      else
        (updateUser s chatId (activatedDoc addMonths now txHash pp),
         if addToChannel channel then TxOutcome.activatedAdded
         else TxOutcome.activatedNoChannel)

/-- The TXID intake of the message handler in server.js: commands and
empty texts are ignored, the text is trimmed, and only a trimmed text
passing validateTxHash is accepted as a hash (anything else is silently
ignored). -/
def messageIntake (text : String) : Option String :=
  if text.data.isEmpty || startsWithSlash text then none
  else
    let txHash := jsTrim text
    if validateTxHash txHash then some txHash else none

/-- The message handler composed with the eventual firing of its
scheduled verification: an accepted hash is processed by
processTransaction after the fixed delay; a rejected text leaves the
store untouched and produces no outcome (no message at all). -/
def handleMessage (addMonths : Int → Nat → Int) (now : Int)
    (channel : ChannelResponse) (s : St) (uid : Int) (text : String) :
    St × Option TxOutcome :=
  match messageIntake text with
  | none => (s, none)
  | some h =>
    let r := processTransaction addMonths now channel s uid h
    (r.1, some r.2)

/-- The $set of handlePayment in server.js: overwrite the user's
pendingPayment with the freshly opened attempt. -/
def handlePaymentSet (s : St) (uid : Int) (pp : PendingPayment) : St :=
  updateUser s uid (fun u => { u with pendingPayment := some pp })

/-- The subscription view rendered by handleSubscription in server.js:
plan, days remaining, expiry timestamp and the expired flag. -/
structure SubView where
  plan : String
  daysRemaining : Int
  expiresAt : Int
  expired : Bool
deriving DecidableEq, Repr

/-- server.js handleSubscription projection: none when the user has no
subscription; otherwise isExpired = expiresAt < now and daysLeft =
isExpired ? 0 : Math.ceil((expiresAt - now) / dayMs).  A user document
in the flow with subscription different from none always carries an
expiresAt, so the missing-expiresAt case is mapped to none. -/
def statusOf (now : Int) (u : UserDoc) : Option SubView :=
  if u.subscription == "none" then none
  else
    match u.expiresAt with
    | none => none
    | some e =>
      let isExpired := decide (e < now)
      some { plan := u.subscription
             daysRemaining := if isExpired then 0 else ceilDiv (e - now) dayMs
             expiresAt := e
             expired := isExpired }

/-- The MY SUBSCRIPTION handler: a pure read of the store, returning the
store unchanged together with the rendered view. -/
def handleSubscription (s : St) (now : Int) (uid : Int) :
    St × Option SubView :=
  (s, (findUser s uid).bind (statusOf now))

/-- The selection filter of the cleanup interval:
User.find({ expiresAt: { $lt: now }, subscription: { $ne: 'none' } }).
A document without expiresAt does not match $lt. -/
def expiredSelect (now : Int) (u : UserDoc) : Bool :=
  (match u.expiresAt with
   | some e => decide (e < now)
   | none => false) && !(u.subscription == "none")

/-- The behaviour of the channel gateway for one user during a sweep:
both calls succeed, banChatMember throws, or unbanChatMember throws. -/
inductive ChanBehavior where
  | ok : ChanBehavior
  | banThrows : ChanBehavior
  | unbanThrows : ChanBehavior
deriving DecidableEq, Repr

/-- The per-user body of the cleanup interval, with its try/catch: ban,
unban, then subscription = 'none' and save.  If the ban or the unban
throws, the catch fires before the subscription assignment, so the
document is left unchanged. -/
def sweepUser (b : ChanBehavior) (u : UserDoc) : UserDoc :=
  match b with
  | ChanBehavior.ok => { u with subscription := "none" }
  | ChanBehavior.banThrows => u
  | ChanBehavior.unbanThrows => u

/-- One cycle of the cleanup interval: every selected expired user is
processed by its own try/catch body; unselected users are untouched. -/
def sweep (env : Int → ChanBehavior) (now : Int) (s : St) : St :=
  s.map (fun u => if expiredSelect now u then sweepUser (env u.userId) u else u)

/-- Modelled from the spec: the repository operation
conditionalActivate(userId, expectedPendingPaymentId, newState) -> bool,
absent from the source, which performs the activation write only when
the user's current pendingPayment.paymentId still equals the expected
identifier and returns false otherwise.  Declared only to be compared
with the unconditional write the source actually performs. -/
def conditionalActivate (s : St) (uid : Int) (expectedPid : String)
    (newSub : String) (newExp : Int) (tx : TxRecord) : St × Bool :=
  match findUser s uid with
  | none => (s, false)
  | some u =>
    match u.pendingPayment with
    | none => (s, false)
    | some pp =>
      if pp.paymentId == expectedPid then
        (updateUser s uid (fun v =>
          { v with subscription := newSub, expiresAt := some newExp,
                   pendingPayment := none,
                   transactions := v.transactions ++ [tx] }), true)
      else (s, false)

/-! ## The on-chain revision -/

/-- The pendingPayment subdocument of the on-chain revision:
{ plan, amount, currency }. -/
structure Pending1 where
  plan : String
  amount : ℚ
  currency : String
deriving DecidableEq, Repr

/-- A transaction record of the on-chain revision:
{ hash, amount, currency, status, timestamp }. -/
structure TxRec1 where
  hash : String
  amount : ℚ
  currency : String
  status : String
  timestamp : Int
deriving DecidableEq, Repr

/-- A user document of the on-chain revision. -/
structure User1 where
  userId : Int
  username : String
  subscription : String
  expiresAt : Option Int
  pendingPayment : Option Pending1
  transactions : List TxRec1
deriving DecidableEq, Repr

/-- The store of the on-chain revision. -/
abbrev St1 : Type := List User1

/-- The essentials of a toncenter getTransaction result: the in_msg
destination address (possibly absent) and the in_msg value in nanotons
(parseInt(...) || 0). -/
structure TonTx where
  destination : Option String
  valueNano : Int
deriving DecidableEq, Repr

/-- walletAddress.replace(non-alphanumerics, empty).toLowerCase(). -/
def normalizeWallet (w : String) : String :=
  ((w.data.filter (fun c => c.isAlphanum)).map Char.toLower).asString

/-- verifyTONTransaction(txHash, expectedAmount, walletAddress): false
when the lookup failed or returned no result or no destination; false on
a destination mismatch against the normalized wallet; otherwise true
exactly when |valueNano / 1e9 - expectedAmount| < 0.01. -/
def verifyTONTransaction (lookup : Option TonTx) (expectedAmount : ℚ)
    (walletAddress : String) : Bool :=
  match lookup with
  | none => false
  | some tx =>
    match tx.destination with
    | none => false
    | some dest =>
      if !(lowerStr dest == normalizeWallet walletAddress) then false
      else decide (|(tx.valueNano : ℚ) / 1000000000 - expectedAmount| < 1 / 100)

def findUser1 (s : St1) (uid : Int) : Option User1 :=
  s.find? (fun u => u.userId == uid)

def updateUser1 (s : St1) (uid : Int) (f : User1 → User1) : St1 :=
  s.map (fun u => if u.userId == uid then f u else u)

def hashUsed1 (s : St1) (h : String) : Bool :=
  s.any (fun u => u.transactions.any (fun t => t.hash == h))

/-- The outcome of a submission in the on-chain revision. -/
inductive Outcome1 where
  | ignored : Outcome1
  | noPendingPayment : Outcome1
  | duplicate : Outcome1
  | verifiedAdded : Outcome1
  | verifiedNoChannel : Outcome1
  | manualReview : Outcome1
deriving DecidableEq, Repr

/-- The TXID message handler of the on-chain revision: shape check on
the trimmed text, user and pendingPayment lookup, global dedup, then:
a TON payment whose hash the verifier confirms is activated (status
completed, channel admission selecting the notification); every other
case, including a TON payment the verifier rejects, falls through to
the manual-review tail that pushes an awaiting_manual_check record and
notifies the admin, leaving pendingPayment in place. -/
def p1HandleTx (ton : Option TonTx) (tonWallet : String)
    (addMonths : Int → Nat → Int) (now : Int) (channelAdded : Bool)
    (s : St1) (uid : Int) (text : String) : St1 × Outcome1 :=
  if text.data.isEmpty || startsWithSlash text then (s, Outcome1.ignored)
  else
    let tx := jsTrim text
    if !((tx.data.length == 64) && tx.data.all isHexChar) then (s, Outcome1.ignored)
    else
      match findUser1 s uid with
      | none => (s, Outcome1.noPendingPayment)
      | some u =>
        match u.pendingPayment with
        | none => (s, Outcome1.noPendingPayment)
        | some pp =>
          if hashUsed1 s tx then (s, Outcome1.duplicate)
          else if pp.currency == "TON" &&
              verifyTONTransaction ton pp.amount tonWallet then
            let e := addMonths now (if pp.plan == "1month" then 1 else 3)
            (updateUser1 s uid (fun v =>
              { v with subscription := pp.plan, expiresAt := some e,
                       pendingPayment := none,
                       transactions := v.transactions ++
                         [{ hash := tx, amount := pp.amount,
                            currency := pp.currency, status := "completed",
                            timestamp := now }] }),
             if channelAdded then Outcome1.verifiedAdded
             else Outcome1.verifiedNoChannel)
          else
            (updateUser1 s uid (fun v =>
              { v with transactions := v.transactions ++
                  [{ hash := tx, amount := pp.amount, currency := pp.currency,
                     status := "awaiting_manual_check", timestamp := now }] }),
             Outcome1.manualReview)

/-! ## Helper lemmas -/

theorem findUser_updateUser_self (s : St) (uid : Int) (f : UserDoc → UserDoc)
    (hf : ∀ v, (f v).userId = v.userId) (u : UserDoc)
    (h : findUser s uid = some u) :
    findUser (updateUser s uid f) uid = some (f u) := by
  induction s with
  | nil => simp [findUser] at h
  | cons a t ih =>
    by_cases hc : a.userId = uid
    · have hpa : (a.userId == uid) = true := by simp [hc]
      have ha : findUser (a :: t) uid = some a := by
        unfold findUser
        exact List.find?_cons_of_pos _ hpa
      rw [ha] at h
      injection h with h
      subst h
      show findUser (updateUser (a :: t) uid f) uid = some (f a)
      unfold updateUser findUser
      simp only [List.map_cons, hpa, if_true]
      exact List.find?_cons_of_pos _ (by simp [hf, hc])
    · have hpa : (a.userId == uid) = false := by simp [hc]
      have h2 : findUser t uid = some u := by
        unfold findUser at h
        rwa [List.find?_cons_of_neg _ (by simp [hc])] at h
      have h3 := ih h2
      unfold updateUser findUser at h3 ⊢
      simp only [List.map_cons, hpa, Bool.false_eq_true, if_false]
      rw [List.find?_cons_of_neg _ (by simp [hc])]
      exact h3

theorem findUser_updateUser_other (s : St) (uid uid2 : Int)
    (f : UserDoc → UserDoc) (hf : ∀ v, (f v).userId = v.userId)
    (hne : uid2 ≠ uid) :
    findUser (updateUser s uid f) uid2 = findUser s uid2 := by
  induction s with
  | nil => simp [findUser, updateUser]
  | cons a t ih =>
    unfold updateUser findUser at ih ⊢
    simp only [List.map_cons]
    set b := if (a.userId == uid) = true then f a else a with hb
    have hbid : b.userId = a.userId := by
      rw [hb]
      split
      · exact hf a
      · rfl
    by_cases h2 : a.userId = uid2
    · have e1 : List.find? (fun u => u.userId == uid2)
          (b :: List.map (fun u => if (u.userId == uid) = true then f u else u) t) = some b :=
        List.find?_cons_of_pos _ (by simp [hbid, h2])
      have e2 : List.find? (fun u => u.userId == uid2) (a :: t) = some a :=
        List.find?_cons_of_pos _ (by simp [h2])
      rw [e1, e2]
      have hfalse : (a.userId == uid) = false := by
        simp only [beq_eq_false_iff_ne]
        rw [h2]; exact hne
      rw [hb, hfalse]
      simp
    · have e1 : List.find? (fun u => u.userId == uid2)
          (b :: List.map (fun u => if (u.userId == uid) = true then f u else u) t) =
          List.find? (fun u => u.userId == uid2)
            (List.map (fun u => if (u.userId == uid) = true then f u else u) t) :=
        List.find?_cons_of_neg _ (by simp [hbid, h2])
      have e2 : List.find? (fun u => u.userId == uid2) (a :: t) =
          List.find? (fun u => u.userId == uid2) t :=
        List.find?_cons_of_neg _ (by simp [h2])
      rw [e1, e2]
      exact ih

theorem hashUsed_of_mem (s : St) (hsh : String) (u : UserDoc) (t : TxRecord)
    (hu : u ∈ s) (ht : t ∈ u.transactions) (hh : t.hash = hsh) :
    hashUsed s hsh = true := by
  unfold hashUsed
  rw [List.any_eq_true]
  refine ⟨u, hu, ?_⟩
  rw [List.any_eq_true]
  exact ⟨t, ht, by simp [hh]⟩

theorem activatedDoc_userId (addM : Int → Nat → Int) (now : Int)
    (h : String) (pp : PendingPayment) (v : UserDoc) :
    (activatedDoc addM now h pp v).userId = v.userId := rfl

theorem processTransaction_activation (addM : Int → Nat → Int) (now : Int)
    (ch : ChannelResponse) (s : St) (uid : Int) (h : String)
    (u : UserDoc) (pp : PendingPayment)
    (hfind : findUser s uid = some u) (hpp : u.pendingPayment = some pp)
    (hdup : hashUsed s h = false) :
    processTransaction addM now ch s uid h =
      (updateUser s uid (activatedDoc addM now h pp),
       if addToChannel ch then TxOutcome.activatedAdded
       else TxOutcome.activatedNoChannel) := by
  simp only [processTransaction, hfind, hpp, hdup, Bool.false_eq_true, if_false]

theorem processTransaction_duplicate (addM : Int → Nat → Int) (now : Int)
    (ch : ChannelResponse) (s : St) (uid : Int) (h : String)
    (u : UserDoc) (pp : PendingPayment)
    (hfind : findUser s uid = some u) (hpp : u.pendingPayment = some pp)
    (hdup : hashUsed s h = true) :
    processTransaction addM now ch s uid h = (s, TxOutcome.duplicateTransaction) := by
  simp only [processTransaction, hfind, hpp, hdup, if_true]

/-! ## Claims -/

/-- C1: once any user A holds a transaction record with hash h (in
particular with status verified or completed), a submission of h by a
user B who has a pending payment fails with DuplicateTransaction and
the store is returned exactly unchanged: no transaction record is added
to any user, and B's subscription, expiresAt and pendingPayment are
left exactly as they were. -/
theorem dedup_blocks_second_user (addM : Int → Nat → Int) (now : Int)
    (ch : ChannelResponse) (s : St) (h : String)
    (uA : UserDoc) (tA : TxRecord)
    (hA : uA ∈ s) (htA : tA ∈ uA.transactions) (hhash : tA.hash = h)
    (hstat : tA.status = "verified" ∨ tA.status = "completed")
    (hvalid : validateTxHash h = true)
    (B : Int) (uB : UserDoc) (hB : findUser s B = some uB)
    (pB : PendingPayment) (hpB : uB.pendingPayment = some pB) :
    processTransaction addM now ch s B h = (s, TxOutcome.duplicateTransaction) :=
  processTransaction_duplicate addM now ch s B h uB pB hB hpB
    (hashUsed_of_mem s h uA tA hA htA hhash)

/-- Closed instance of C1: a concrete two-user store in which user 1
already holds the hash with status verified and user 2, with an open
pending payment, submits the same hash. -/
theorem dedup_blocks_second_user_witness :
    processTransaction (fun t m => t + (m : Int)) 7 ChannelResponse.ok
      [{ userId := 1, subscription := "1month", expiresAt := some 100,
         pendingPayment := none,
         transactions := [{ hash := "aaaaaaaaaaaaaaaaaaaaaaaaaaaaaaaaaaaaaaaaaaaaaaaaaaaaaaaaaaaaaaaa",
                            amount := 24, currency := "USDT", status := "verified",
                            verified := true, timestamp := 5, paymentId := "pay_1" }] },
       { userId := 2, subscription := "none", expiresAt := none,
         pendingPayment := some { plan := "1month", amount := 24, currency := "USDT",
                                  paymentId := "pay_2", createdAt := 6 },
         transactions := [] }]
      2 "aaaaaaaaaaaaaaaaaaaaaaaaaaaaaaaaaaaaaaaaaaaaaaaaaaaaaaaaaaaaaaaa" =
    ([{ userId := 1, subscription := "1month", expiresAt := some 100,
        pendingPayment := none,
        transactions := [{ hash := "aaaaaaaaaaaaaaaaaaaaaaaaaaaaaaaaaaaaaaaaaaaaaaaaaaaaaaaaaaaaaaaa",
                           amount := 24, currency := "USDT", status := "verified",
                           verified := true, timestamp := 5, paymentId := "pay_1" }] },
      { userId := 2, subscription := "none", expiresAt := none,
        pendingPayment := some { plan := "1month", amount := 24, currency := "USDT",
                                 paymentId := "pay_2", createdAt := 6 },
        transactions := [] }], TxOutcome.duplicateTransaction) :=
  dedup_blocks_second_user (fun t m => t + (m : Int)) 7 ChannelResponse.ok _
    "aaaaaaaaaaaaaaaaaaaaaaaaaaaaaaaaaaaaaaaaaaaaaaaaaaaaaaaaaaaaaaaa"
    ⟨1, "1month", some 100, none,
      [⟨"aaaaaaaaaaaaaaaaaaaaaaaaaaaaaaaaaaaaaaaaaaaaaaaaaaaaaaaaaaaaaaaa",
        24, "USDT", "verified", true, 5, "pay_1"⟩]⟩
    ⟨"aaaaaaaaaaaaaaaaaaaaaaaaaaaaaaaaaaaaaaaaaaaaaaaaaaaaaaaaaaaaaaaa",
      24, "USDT", "verified", true, 5, "pay_1"⟩
    (by decide) (by decide) rfl (Or.inl rfl) (by decide)
    2 ⟨2, "none", none, some ⟨"1month", 24, "USDT", "pay_2", 6⟩, []⟩ (by decide)
    ⟨"1month", 24, "USDT", "pay_2", 6⟩ (by decide)

/-- C4: an accepted delayed-trust verification for a user with a pending
payment for plan p (and no active subscription) yields subscription = p,
expiresAt = the verification time advanced by the plan duration (one
month for 1month, three for 3months), pendingPayment cleared, and
exactly one new transaction record appended bearing the submitted hash
with status verified. -/
theorem activation_full_state (addM : Int → Nat → Int) (now : Int)
    (ch : ChannelResponse) (s : St) (uid : Int) (h : String)
    (u : UserDoc) (pp : PendingPayment)
    (hfind : findUser s uid = some u) (hpp : u.pendingPayment = some pp)
    (hdup : hashUsed s h = false) (hsub : u.subscription = "none")
    (hplan : pp.plan = "1month" ∨ pp.plan = "3months") :
    findUser (processTransaction addM now ch s uid h).1 uid = some
      { u with
        subscription := pp.plan
        expiresAt := some (calculateExpiry addM now pp.plan)
        pendingPayment := none
        transactions := u.transactions ++
          [{ hash := h, amount := pp.amount, currency := pp.currency,
             status := "verified", verified := true, timestamp := now,
             paymentId := pp.paymentId }] }
    ∧ (pp.plan = "1month" → calculateExpiry addM now pp.plan = addM now 1)
    ∧ (pp.plan = "3months" → calculateExpiry addM now pp.plan = addM now 3)
    ∧ ((processTransaction addM now ch s uid h).2 = TxOutcome.activatedAdded ∨
       (processTransaction addM now ch s uid h).2 = TxOutcome.activatedNoChannel) := by
  have heq := processTransaction_activation addM now ch s uid h u pp hfind hpp hdup
  rw [heq]
  refine ⟨?_, ?_, ?_, ?_⟩
  · exact findUser_updateUser_self s uid (activatedDoc addM now h pp)
      (fun v => rfl) u hfind
  · intro hp
    simp [calculateExpiry, hp]
  · intro hp
    simp [calculateExpiry, hp]
  · by_cases hc : addToChannel ch = true
    · left; simp [hc]
    · right; simp [hc]

/-- Closed instance of C4 at a concrete store: after the verification
fires, the user's subscription is the pending plan, expiry is one month
after the verification time, the pending payment is gone and the single
appended record carries the submitted hash with status verified. -/
theorem activation_full_state_witness :
    (findUser (processTransaction (fun t m => t + (m : Int)) 50 ChannelResponse.ok
        [⟨2, "none", none, some ⟨"1month", 24, "USDT", "pay_9", 0⟩, []⟩] 2
        "bbbbbbbbbbbbbbbbbbbbbbbbbbbbbbbbbbbbbbbbbbbbbbbbbbbbbbbbbbbbbbbb").1 2) =
      some ⟨2, "1month", some 51, none,
        [⟨"bbbbbbbbbbbbbbbbbbbbbbbbbbbbbbbbbbbbbbbbbbbbbbbbbbbbbbbbbbbbbbbb",
          24, "USDT", "verified", true, 50, "pay_9"⟩]⟩ := by
  have hmain := activation_full_state (fun t m => t + (m : Int)) 50 ChannelResponse.ok
      [⟨2, "none", none, some ⟨"1month", 24, "USDT", "pay_9", 0⟩, []⟩] 2
      "bbbbbbbbbbbbbbbbbbbbbbbbbbbbbbbbbbbbbbbbbbbbbbbbbbbbbbbbbbbbbbbb"
      ⟨2, "none", none, some ⟨"1month", 24, "USDT", "pay_9", 0⟩, []⟩
      ⟨"1month", 24, "USDT", "pay_9", 0⟩ (by decide) rfl (by decide) rfl (Or.inl rfl)
  rw [hmain.1]
  rfl

/-- C6: the ledger write of an accepted payment persists identically for
every possible channel-admission outcome: a clean admit, the
already-a-participant error (treated as success) and any other error all
leave the activated user document in place; the channel result selects
only which of the two success notifications is sent. -/
theorem channel_failure_never_rolls_back (addM : Int → Nat → Int) (now : Int)
    (s : St) (uid : Int) (h : String) (u : UserDoc) (pp : PendingPayment)
    (hfind : findUser s uid = some u) (hpp : u.pendingPayment = some pp)
    (hdup : hashUsed s h = false) :
    (∀ r r' : ChannelResponse,
       (processTransaction addM now r s uid h).1 =
       (processTransaction addM now r' s uid h).1)
    ∧ (∀ r : ChannelResponse,
        findUser (processTransaction addM now r s uid h).1 uid =
          some (activatedDoc addM now h pp u))
    ∧ addToChannel ChannelResponse.ok = true
    ∧ addToChannel (ChannelResponse.errorWith true) = true
    ∧ addToChannel (ChannelResponse.errorWith false) = false
    ∧ (∀ r : ChannelResponse,
        (processTransaction addM now r s uid h).2 =
          if addToChannel r then TxOutcome.activatedAdded
          else TxOutcome.activatedNoChannel) := by
  refine ⟨?_, ?_, rfl, rfl, rfl, ?_⟩
  · intro r r'
    rw [processTransaction_activation addM now r s uid h u pp hfind hpp hdup,
        processTransaction_activation addM now r' s uid h u pp hfind hpp hdup]
  · intro r
    rw [processTransaction_activation addM now r s uid h u pp hfind hpp hdup]
    exact findUser_updateUser_self s uid (activatedDoc addM now h pp)
      (fun v => rfl) u hfind
  · intro r
    rw [processTransaction_activation addM now r s uid h u pp hfind hpp hdup]

/-- Closed instance of C6: at a concrete store, the post-state after a
failing channel admission equals the post-state after a clean one, and
in the failing run the subscription is still activated. -/
theorem channel_failure_never_rolls_back_witness :
    ((processTransaction (fun t m => t + (m : Int)) 9 (ChannelResponse.errorWith false)
        [⟨3, "none", none, some ⟨"3months", 55, "USDT", "pay_c", 1⟩, []⟩] 3
        "cccccccccccccccccccccccccccccccccccccccccccccccccccccccccccccc").1 =
     (processTransaction (fun t m => t + (m : Int)) 9 ChannelResponse.ok
        [⟨3, "none", none, some ⟨"3months", 55, "USDT", "pay_c", 1⟩, []⟩] 3
        "cccccccccccccccccccccccccccccccccccccccccccccccccccccccccccccc").1)
    ∧ (findUser (processTransaction (fun t m => t + (m : Int)) 9 (ChannelResponse.errorWith false)
        [⟨3, "none", none, some ⟨"3months", 55, "USDT", "pay_c", 1⟩, []⟩] 3
        "cccccccccccccccccccccccccccccccccccccccccccccccccccccccccccccc").1 3).map
      (fun v => v.subscription) = some "3months" := by
  have hmain := channel_failure_never_rolls_back (fun t m => t + (m : Int)) 9
      [⟨3, "none", none, some ⟨"3months", 55, "USDT", "pay_c", 1⟩, []⟩] 3
      "cccccccccccccccccccccccccccccccccccccccccccccccccccccccccccccc"
      ⟨3, "none", none, some ⟨"3months", 55, "USDT", "pay_c", 1⟩, []⟩
      ⟨"3months", 55, "USDT", "pay_c", 1⟩ (by decide) rfl (by decide)
  refine ⟨hmain.1 _ _, ?_⟩
  rw [hmain.2.1 (ChannelResponse.errorWith false)]
  rfl

/-- C2 counterexample: the activation step of the source takes no
expected-pending-payment identifier and checks no precondition.  In a
concrete store whose user's current pendingPayment has paymentId pay_b,
an activation replayed with the stale expectation pay_a would, per the
spec's conditionalActivate, return false and leave the store unchanged;
the source's processTransaction instead activates the current pending
payment, changing the store and the subscription. -/
theorem conditional_activation_counterexample :
    (conditionalActivate
        [⟨1, "none", none, some ⟨"3months", 55, "USDT", "pay_b", 0⟩, []⟩] 1 "pay_a"
        "3months" 99
        ⟨"dddddddddddddddddddddddddddddddddddddddddddddddddddddddddddddddd",
         55, "USDT", "verified", true, 9, "pay_a"⟩ =
      ([⟨1, "none", none, some ⟨"3months", 55, "USDT", "pay_b", 0⟩, []⟩], false))
    ∧ ¬("pay_a" = "pay_b")
    ∧ ((processTransaction (fun t m => t + (m : Int)) 9 ChannelResponse.ok
          [⟨1, "none", none, some ⟨"3months", 55, "USDT", "pay_b", 0⟩, []⟩] 1
          "dddddddddddddddddddddddddddddddddddddddddddddddddddddddddddddddd").1 ≠
        [⟨1, "none", none, some ⟨"3months", 55, "USDT", "pay_b", 0⟩, []⟩])
    ∧ ((findUser (processTransaction (fun t m => t + (m : Int)) 9 ChannelResponse.ok
          [⟨1, "none", none, some ⟨"3months", 55, "USDT", "pay_b", 0⟩, []⟩] 1
          "dddddddddddddddddddddddddddddddddddddddddddddddddddddddddddddddd").1 1).map
        (fun v => v.subscription) = some "3months") :=
  ⟨rfl, by decide, by decide, rfl⟩

/-- C2 amended: the source's activation has no conditional-update
precondition, so a replay whose stale expected pending payment was
replaced by a new one activates the new one (see the counterexample);
what does hold is the consumed case: replaying the activation step after
the user's pending payment was cleared is a no-op that fails with
NoPendingPayment, returns the store unchanged and never extends expiry
a second time. -/
theorem replay_after_consumed_pending_is_noop (addM : Int → Nat → Int)
    (now : Int) (ch : ChannelResponse) (s : St) (uid : Int) (h : String)
    (u : UserDoc) (hfind : findUser s uid = some u)
    (hpp : u.pendingPayment = none) :
    processTransaction addM now ch s uid h = (s, TxOutcome.noPendingPayment) := by
  simp only [processTransaction, hfind, hpp]

/-- Closed instance of the amended C2: a user whose pending payment was
already consumed by a first activation; re-running the verification is a
no-op on the store. -/
theorem replay_after_consumed_pending_is_noop_witness :
    processTransaction (fun t m => t + (m : Int)) 60 ChannelResponse.ok
      [⟨4, "1month", some 61, none,
        [⟨"eeeeeeeeeeeeeeeeeeeeeeeeeeeeeeeeeeeeeeeeeeeeeeeeeeeeeeeeeeeeeeee",
          24, "USDT", "verified", true, 60, "pay_e"⟩]⟩] 4
      "eeeeeeeeeeeeeeeeeeeeeeeeeeeeeeeeeeeeeeeeeeeeeeeeeeeeeeeeeeeeeeee" =
    ([⟨4, "1month", some 61, none,
        [⟨"eeeeeeeeeeeeeeeeeeeeeeeeeeeeeeeeeeeeeeeeeeeeeeeeeeeeeeeeeeeeeeee",
          24, "USDT", "verified", true, 60, "pay_e"⟩]⟩],
     TxOutcome.noPendingPayment) :=
  replay_after_consumed_pending_is_noop (fun t m => t + (m : Int)) 60
    ChannelResponse.ok _ 4 "eeeeeeeeeeeeeeeeeeeeeeeeeeeeeeeeeeeeeeeeeeeeeeeeeeeeeeeeeeeeeeee"
    ⟨4, "1month", some 61, none,
      [⟨"eeeeeeeeeeeeeeeeeeeeeeeeeeeeeeeeeeeeeeeeeeeeeeeeeeeeeeeeeeeeeeee",
        24, "USDT", "verified", true, 60, "pay_e"⟩]⟩ (by decide) rfl

/-- C8 counterexample: user 1 submits a valid hash while pending payment
P1 (plan 1month, pay_a) is open; before the timer fires a new pending
payment P2 (plan 3months, pay_b) replaces it; the firing activates P2's
plan 3months, not P1's plan 1month as the claim states. -/
theorem timer_original_plan_counterexample :
    (messageIntake "ffffffffffffffffffffffffffffffffffffffffffffffffffffffffffffffff" =
      some "ffffffffffffffffffffffffffffffffffffffffffffffffffffffffffffffff")
    ∧ ((findUser (processTransaction (fun t m => t + (m : Int)) 10 ChannelResponse.ok
          (handlePaymentSet
            [⟨1, "none", none, some ⟨"1month", 24, "USDT", "pay_a", 0⟩, []⟩] 1
            ⟨"3months", 55, "USDT", "pay_b", 5⟩) 1
          "ffffffffffffffffffffffffffffffffffffffffffffffffffffffffffffffff").1 1).map
        (fun v => v.subscription) = some "3months")
    ∧ ¬((some "3months" : Option String) = some "1month") :=
  ⟨by decide, rfl, by decide⟩

/-- C8 amended: the delayed verification cannot be cancelled and, when
it fires, processTransaction re-reads the user's pending payment at
firing time: with P2 having replaced P1, the activated plan is P2's (the
latest), not the plan of the attempt that was pending at submission. -/
theorem timer_activates_current_pending (addM : Int → Nat → Int) (now : Int)
    (ch : ChannelResponse) (s0 : St) (uid : Int) (h : String)
    (u : UserDoc) (P1 P2 : PendingPayment)
    (hfind : findUser s0 uid = some u) (hP1 : u.pendingPayment = some P1)
    (hvalid : validateTxHash h = true)
    (hdup : hashUsed (handlePaymentSet s0 uid P2) h = false) :
    findUser (processTransaction addM now ch (handlePaymentSet s0 uid P2) uid h).1 uid =
      some (activatedDoc addM now h P2 { u with pendingPayment := some P2 })
    ∧ (activatedDoc addM now h P2 { u with pendingPayment := some P2 }).subscription
        = P2.plan := by
  have hf2 : findUser (handlePaymentSet s0 uid P2) uid =
      some { u with pendingPayment := some P2 } := by
    unfold handlePaymentSet
    exact findUser_updateUser_self s0 uid
      (fun v => { v with pendingPayment := some P2 }) (fun v => rfl) u hfind
  have heq := processTransaction_activation addM now ch (handlePaymentSet s0 uid P2)
      uid h { u with pendingPayment := some P2 } P2 hf2 rfl hdup
  rw [heq]
  refine ⟨?_, rfl⟩
  exact findUser_updateUser_self (handlePaymentSet s0 uid P2) uid
    (activatedDoc addM now h P2) (fun v => rfl) _ hf2

/-- Closed instance of the amended C8: at the concrete store of the
counterexample, the firing activates the replaced pending payment P2. -/
theorem timer_activates_current_pending_witness :
    (findUser (processTransaction (fun t m => t + (m : Int)) 10 ChannelResponse.ok
        (handlePaymentSet
          [⟨1, "none", none, some ⟨"1month", 24, "USDT", "pay_a", 0⟩, []⟩] 1
          ⟨"3months", 55, "USDT", "pay_b", 5⟩) 1
        "1111111111111111111111111111111111111111111111111111111111111111").1 1).map
      (fun v => v.subscription) = some "3months" := by
  have hmain := timer_activates_current_pending (fun t m => t + (m : Int)) 10
      ChannelResponse.ok
      [⟨1, "none", none, some ⟨"1month", 24, "USDT", "pay_a", 0⟩, []⟩] 1
      "1111111111111111111111111111111111111111111111111111111111111111"
      ⟨1, "none", none, some ⟨"1month", 24, "USDT", "pay_a", 0⟩, []⟩
      ⟨"1month", 24, "USDT", "pay_a", 0⟩ ⟨"3months", 55, "USDT", "pay_b", 5⟩
      (by decide) rfl (by decide) (by decide)
  rw [hmain.1]
  rfl

theorem findUser1_updateUser1_self (s : St1) (uid : Int) (f : User1 → User1)
    (hf : ∀ v, (f v).userId = v.userId) (u : User1)
    (h : findUser1 s uid = some u) :
    findUser1 (updateUser1 s uid f) uid = some (f u) := by
  induction s with
  | nil => simp [findUser1] at h
  | cons a t ih =>
    by_cases hc : a.userId = uid
    · have hpa : (a.userId == uid) = true := by simp [hc]
      have ha : findUser1 (a :: t) uid = some a := by
        unfold findUser1
        exact List.find?_cons_of_pos _ hpa
      rw [ha] at h
      injection h with h
      subst h
      show findUser1 (updateUser1 (a :: t) uid f) uid = some (f a)
      unfold updateUser1 findUser1
      simp only [List.map_cons, hpa, if_true]
      exact List.find?_cons_of_pos _ (by simp [hf, hc])
    · have hpa : (a.userId == uid) = false := by simp [hc]
      have h2 : findUser1 t uid = some u := by
        unfold findUser1 at h
        rwa [List.find?_cons_of_neg _ (by simp [hc])] at h
      have h3 := ih h2
      unfold updateUser1 findUser1 at h3 ⊢
      simp only [List.map_cons, hpa, Bool.false_eq_true, if_false]
      rw [List.find?_cons_of_neg _ (by simp [hc])]
      exact h3

theorem p1HandleTx_manual (ton : Option TonTx) (tonWallet : String)
    (addM : Int → Nat → Int) (now : Int) (chA : Bool) (s : St1) (uid : Int)
    (text : String) (u : User1) (pp : Pending1)
    (hne : text.data.isEmpty = false) (hnc : startsWithSlash text = false)
    (hshape : (((jsTrim text).data.length == 64) &&
        (jsTrim text).data.all isHexChar) = true)
    (hfind : findUser1 s uid = some u) (hpp : u.pendingPayment = some pp)
    (hdup : hashUsed1 s (jsTrim text) = false)
    (hrej : (pp.currency == "TON" &&
        verifyTONTransaction ton pp.amount tonWallet) = false) :
    p1HandleTx ton tonWallet addM now chA s uid text =
      (updateUser1 s uid (fun v =>
        { v with transactions := v.transactions ++
            [{ hash := jsTrim text, amount := pp.amount, currency := pp.currency,
               status := "awaiting_manual_check", timestamp := now }] }),
       Outcome1.manualReview) := by
  simp only [p1HandleTx, hne, hnc, hshape, hfind, hpp, hdup, hrej,
    Bool.false_or, Bool.or_self, Bool.not_true, Bool.false_eq_true, if_false,
    Bool.not_false, if_true]

/-- C3 counterexample: a concrete TON submission whose on-chain lookup
reports a destination different from the configured wallet.  The claim
says the operation fails with VerificationFailed and appends no
transaction record; the source instead falls through to the
manual-review tail: the outcome is manualReview and one record with
status awaiting_manual_check is appended to the submitting user. -/
theorem rejected_onchain_counterexample :
    (verifyTONTransaction (some ⟨some "other", 11000000000⟩) 11 "WALLET123" = false)
    ∧ ((p1HandleTx (some ⟨some "other", 11000000000⟩) "WALLET123"
          (fun t m => t + (m : Int)) 0 true
          [⟨1, "u", "none", none, some ⟨"1month", 11, "TON"⟩, []⟩] 1
          "2222222222222222222222222222222222222222222222222222222222222222").2 =
        Outcome1.manualReview)
    ∧ ((findUser1 (p1HandleTx (some ⟨some "other", 11000000000⟩) "WALLET123"
          (fun t m => t + (m : Int)) 0 true
          [⟨1, "u", "none", none, some ⟨"1month", 11, "TON"⟩, []⟩] 1
          "2222222222222222222222222222222222222222222222222222222222222222").1 1).map
        (fun v => v.transactions.map (fun t => t.status)) =
        some ["awaiting_manual_check"]) :=
  ⟨by decide, rfl, rfl⟩

/-- C3 amended: under the on-chain strategy, a submission whose hash the
verifier rejects (destination mismatch or amount outside the 0.01
tolerance) does not fail with VerificationFailed; it falls through to
the manual-review tail, appending exactly one transaction record with
status awaiting_manual_check for the submitting user while leaving the
user's pendingPayment, subscription and expiresAt unchanged, so a
corrected hash can still be submitted against the same pending
attempt. -/
theorem rejected_onchain_goes_to_manual_review (ton : Option TonTx)
    (tonWallet : String) (addM : Int → Nat → Int) (now : Int) (chA : Bool)
    (s : St1) (uid : Int) (text : String) (u : User1) (pp : Pending1)
    (hne : text.data.isEmpty = false) (hnc : startsWithSlash text = false)
    (hshape : (((jsTrim text).data.length == 64) &&
        (jsTrim text).data.all isHexChar) = true)
    (hfind : findUser1 s uid = some u) (hpp : u.pendingPayment = some pp)
    (hdup : hashUsed1 s (jsTrim text) = false)
    (hTON : pp.currency = "TON")
    (hrej : verifyTONTransaction ton pp.amount tonWallet = false) :
    (p1HandleTx ton tonWallet addM now chA s uid text).2 = Outcome1.manualReview
    ∧ findUser1 (p1HandleTx ton tonWallet addM now chA s uid text).1 uid =
        some { u with transactions := u.transactions ++
          [{ hash := jsTrim text, amount := pp.amount, currency := pp.currency,
             status := "awaiting_manual_check", timestamp := now }] } := by
  have heq := p1HandleTx_manual ton tonWallet addM now chA s uid text u pp
      hne hnc hshape hfind hpp hdup (by rw [hrej, Bool.and_false])
  rw [heq]
  constructor
  · rfl
  · exact findUser1_updateUser1_self s uid (fun v =>
      { v with transactions := v.transactions ++
          [{ hash := jsTrim text, amount := pp.amount, currency := pp.currency,
             status := "awaiting_manual_check", timestamp := now }] })
      (fun v => rfl) u hfind

/-- Closed instance of the amended C3: at the counterexample store, the
record is appended with status awaiting_manual_check and the pending
payment survives for a retry. -/
theorem rejected_onchain_goes_to_manual_review_witness :
    ((p1HandleTx (some ⟨some "other", 11000000000⟩) "WALLET123"
        (fun t m => t + (m : Int)) 0 true
        [⟨1, "u", "none", none, some ⟨"1month", 11, "TON"⟩, []⟩] 1
        "3333333333333333333333333333333333333333333333333333333333333333").2 =
      Outcome1.manualReview)
    ∧ ((findUser1 (p1HandleTx (some ⟨some "other", 11000000000⟩) "WALLET123"
        (fun t m => t + (m : Int)) 0 true
        [⟨1, "u", "none", none, some ⟨"1month", 11, "TON"⟩, []⟩] 1
        "3333333333333333333333333333333333333333333333333333333333333333").1 1).map
        (fun v => v.pendingPayment) = some (some ⟨"1month", 11, "TON"⟩)) := by
  have hmain := rejected_onchain_goes_to_manual_review
      (some ⟨some "other", 11000000000⟩) "WALLET123" (fun t m => t + (m : Int)) 0 true
      [⟨1, "u", "none", none, some ⟨"1month", 11, "TON"⟩, []⟩] 1
      "3333333333333333333333333333333333333333333333333333333333333333"
      ⟨1, "u", "none", none, some ⟨"1month", 11, "TON"⟩, []⟩ ⟨"1month", 11, "TON"⟩
      (by decide) (by decide) (by decide) (by decide) rfl (by decide) rfl (by decide)
  refine ⟨hmain.1, ?_⟩
  rw [hmain.2]
  rfl

/-- C5 counterexample: the intake applies the shape predicate to the
trimmed text, not to the raw message text.  A raw text of 66 characters
(a valid 64-character hash padded with one space on each side) is not
itself 64 hexadecimal characters, yet the handler accepts it: the user
is messaged and, when the scheduled verification fires, a transaction
record is created. -/
theorem shape_reject_counterexample :
    (validateTxHash " 4444444444444444444444444444444444444444444444444444444444444444 "
      = false)
    ∧ ((handleMessage (fun t m => t + (m : Int)) 0 ChannelResponse.ok
          [⟨5, "none", none, some ⟨"1month", 24, "USDT", "pay_5", 0⟩, []⟩] 5
          " 4444444444444444444444444444444444444444444444444444444444444444 ").2 ≠
        none)
    ∧ ((findUser (handleMessage (fun t m => t + (m : Int)) 0 ChannelResponse.ok
          [⟨5, "none", none, some ⟨"1month", 24, "USDT", "pay_5", 0⟩, []⟩] 5
          " 4444444444444444444444444444444444444444444444444444444444444444 ").1 5).map
        (fun v => v.transactions.length) = some 1) :=
  ⟨by decide, by decide, rfl⟩

/-- C5 amended: for every incoming message text whose trimmed form fails
the shape predicate (64 hexadecimal characters), the handler is a silent
no-op: the store is returned exactly unchanged (no transaction record,
no field of any user altered) and no outcome is produced (nothing is
reported to the user). -/
theorem invalid_trimmed_text_is_silent_noop (addM : Int → Nat → Int)
    (now : Int) (ch : ChannelResponse) (s : St) (uid : Int) (text : String)
    (h : validateTxHash (jsTrim text) = false) :
    handleMessage addM now ch s uid text = (s, none) := by
  unfold handleMessage messageIntake
  cases hc : (text.data.isEmpty || startsWithSlash text)
  · simp [hc, h]
  · simp [hc]

/-- Closed instance of the amended C5: ordinary conversation text leaves
a concrete store unchanged and produces no outcome. -/
theorem invalid_trimmed_text_is_silent_noop_witness :
    handleMessage (fun t m => t + (m : Int)) 3 ChannelResponse.ok
      [⟨6, "1month", some 90, none, []⟩] 6 "hello there" =
    ([⟨6, "1month", some 90, none, []⟩], none) :=
  invalid_trimmed_text_is_silent_noop (fun t m => t + (m : Int)) 3
    ChannelResponse.ok [⟨6, "1month", some 90, none, []⟩] 6 "hello there"
    (by decide)

theorem ceilDiv_nonpos (a b : Int) (ha : a ≤ 0) (hb : 0 < b) :
    ceilDiv a b ≤ 0 := by
  unfold ceilDiv
  have h := Int.ediv_nonneg (show (0:Int) ≤ -a by omega) (le_of_lt hb)
  omega

theorem ceilDiv_nonneg (a b : Int) (ha : 0 ≤ a) (hb : 0 < b) :
    0 ≤ ceilDiv a b := by
  unfold ceilDiv
  have h := Int.ediv_le_ediv hb (show -a ≤ 0 by omega)
  rw [Int.zero_ediv] at h
  omega

/-- C7: one sweep cycle over a user selected as expired (subscription
not none, expiresAt before now) whose channel calls succeed sets the
subscription to none while keeping the transactions array and the
expiresAt field exactly as they were (expiresAt remains as a historical
record), and any immediately following sweep leaves that user untouched
because the selection filter no longer matches. -/
theorem sweep_expires_then_noop (env : Int → ChanBehavior) (now : Int)
    (s : St) (i : Nat) (u : UserDoc)
    (hu : s[i]? = some u)
    (hsel : expiredSelect now u = true)
    (hok : env u.userId = ChanBehavior.ok) :
    (sweep env now s)[i]? = some { u with subscription := "none" }
    ∧ ({ u with subscription := "none" } : UserDoc).transactions = u.transactions
    ∧ ({ u with subscription := "none" } : UserDoc).expiresAt = u.expiresAt
    ∧ ∀ (env2 : Int → ChanBehavior) (now2 : Int),
        (sweep env2 now2 (sweep env now s))[i]? =
          some { u with subscription := "none" } := by
  have h1 : (sweep env now s)[i]? = some { u with subscription := "none" } := by
    unfold sweep
    rw [List.getElem?_map, hu]
    simp [hsel, hok, sweepUser]
  refine ⟨h1, rfl, rfl, ?_⟩
  intro env2 now2
  unfold sweep
  rw [List.getElem?_map]
  unfold sweep at h1
  rw [h1]
  simp [expiredSelect]

/-- Closed instance of C7: a concrete expired 3months user is demoted to
none with history intact, and a second sweep is a no-op for them. -/
theorem sweep_expires_then_noop_witness :
    ((sweep (fun _ => ChanBehavior.ok) 1000
        [⟨7, "3months", some 999, none,
          [⟨"5555555555555555555555555555555555555555555555555555555555555555",
            55, "USDT", "verified", true, 1, "pay_7"⟩]⟩])[0]? =
      some ⟨7, "none", some 999, none,
        [⟨"5555555555555555555555555555555555555555555555555555555555555555",
          55, "USDT", "verified", true, 1, "pay_7"⟩]⟩)
    ∧ ((sweep (fun _ => ChanBehavior.ok) 2000
        (sweep (fun _ => ChanBehavior.ok) 1000
          [⟨7, "3months", some 999, none,
            [⟨"5555555555555555555555555555555555555555555555555555555555555555",
              55, "USDT", "verified", true, 1, "pay_7"⟩]⟩]))[0]? =
      some ⟨7, "none", some 999, none,
        [⟨"5555555555555555555555555555555555555555555555555555555555555555",
          55, "USDT", "verified", true, 1, "pay_7"⟩]⟩) := by
  have hmain := sweep_expires_then_noop (fun _ => ChanBehavior.ok) 1000
      [⟨7, "3months", some 999, none,
        [⟨"5555555555555555555555555555555555555555555555555555555555555555",
          55, "USDT", "verified", true, 1, "pay_7"⟩]⟩] 0
      ⟨7, "3months", some 999, none,
        [⟨"5555555555555555555555555555555555555555555555555555555555555555",
          55, "USDT", "verified", true, 1, "pay_7"⟩]⟩
      rfl (by decide) rfl
  exact ⟨hmain.1, hmain.2.2.2 (fun _ => ChanBehavior.ok) 2000⟩

/-- C10 (implicit): the per-user try/catch of the sweep isolates channel
failures: if banning or unbanning a selected user throws, that user's
document is left completely unchanged this cycle (so the same selection
matches again on the next sweep), and the outcome for every other user
is unaffected by that user's channel behaviour. -/
theorem sweep_isolated_failure (env : Int → ChanBehavior) (now : Int)
    (s : St) (i : Nat) (u : UserDoc)
    (hu : s[i]? = some u)
    (hsel : expiredSelect now u = true)
    (hfail : env u.userId = ChanBehavior.banThrows ∨
             env u.userId = ChanBehavior.unbanThrows) :
    (sweep env now s)[i]? = some u
    ∧ ((sweep env now s)[i]?).map (expiredSelect now) = some true
    ∧ ∀ (env2 : Int → ChanBehavior) (j : Nat) (v : UserDoc),
        s[j]? = some v → v.userId ≠ u.userId →
        (∀ w : Int, w ≠ u.userId → env2 w = env w) →
        (sweep env2 now s)[j]? = (sweep env now s)[j]? := by
  have h1 : (sweep env now s)[i]? = some u := by
    unfold sweep
    rw [List.getElem?_map, hu]
    rcases hfail with hf | hf <;> simp [hsel, hf, sweepUser]
  refine ⟨h1, ?_, ?_⟩
  · rw [h1]
    show some (expiredSelect now u) = some true
    rw [hsel]
  · intro env2 j v hv hne hag
    unfold sweep
    rw [List.getElem?_map, List.getElem?_map, hv]
    show some (if expiredSelect now v then sweepUser (env2 v.userId) v else v) =
         some (if expiredSelect now v then sweepUser (env v.userId) v else v)
    rw [hag v.userId hne]

/-- Closed instance of C10: user 8's ban throws, so user 8 survives the
sweep unchanged, while user 9 is processed exactly as it would be under
an all-ok channel environment. -/
theorem sweep_isolated_failure_witness :
    ((sweep (fun w => if w == 8 then ChanBehavior.banThrows else ChanBehavior.ok)
        1000 [⟨8, "1month", some 500, none, []⟩, ⟨9, "3months", some 600, none, []⟩])[0]? =
      some ⟨8, "1month", some 500, none, []⟩)
    ∧ ((sweep (fun _ => ChanBehavior.ok) 1000
          [⟨8, "1month", some 500, none, []⟩, ⟨9, "3months", some 600, none, []⟩])[1]? =
        (sweep (fun w => if w == 8 then ChanBehavior.banThrows else ChanBehavior.ok)
          1000 [⟨8, "1month", some 500, none, []⟩, ⟨9, "3months", some 600, none, []⟩])[1]?) := by
  have hmain := sweep_isolated_failure
      (fun w => if w == 8 then ChanBehavior.banThrows else ChanBehavior.ok) 1000
      [⟨8, "1month", some 500, none, []⟩, ⟨9, "3months", some 600, none, []⟩] 0
      ⟨8, "1month", some 500, none, []⟩ rfl (by decide) (Or.inl (by decide))
  refine ⟨hmain.1, ?_⟩
  exact hmain.2.2 (fun _ => ChanBehavior.ok) 1 ⟨9, "3months", some 600, none, []⟩
    rfl (by decide) (fun w hw => by simp [hw])

/-- C9: the subscription status is a pure projection — the handler
returns the store unchanged — and for a user with an active subscription
its days-remaining field equals ceil((expiresAt - now) / day) floored at
zero; in particular an expiresAt exactly 10 days ahead reports 10 with
expired = false, and an expiresAt in the past reports 0 with
expired = true. -/
theorem statusOf_pure_projection (s : St) (now : Int) (uid : Int)
    (u : UserDoc) (e : Int)
    (hsub : u.subscription ≠ "none") (he : u.expiresAt = some e) :
    (handleSubscription s now uid).1 = s
    ∧ statusOf now u =
        some ⟨u.subscription, max 0 (ceilDiv (e - now) dayMs), e, decide (e < now)⟩
    ∧ (e = now + 10 * dayMs →
        statusOf now u = some ⟨u.subscription, 10, e, false⟩)
    ∧ (e < now →
        statusOf now u = some ⟨u.subscription, 0, e, true⟩) := by
  have hbe : (u.subscription == "none") = false := by simp [hsub]
  have hday : (0 : Int) < dayMs := by decide
  have hdayv : dayMs = 86400000 := by decide
  refine ⟨rfl, ?_, ?_, ?_⟩
  · simp only [statusOf, hbe, Bool.false_eq_true, if_false, he]
    by_cases hlt : e < now
    · have hmax : max 0 (ceilDiv (e - now) dayMs) = 0 := by
        have := ceilDiv_nonpos (e - now) dayMs (by omega) hday
        omega
      simp [hlt, hmax]
    · have hmax : max 0 (ceilDiv (e - now) dayMs) = ceilDiv (e - now) dayMs := by
        have := ceilDiv_nonneg (e - now) dayMs (by omega) hday
        omega
      simp [hlt, hmax]
  · intro h10
    have hlt : ¬ e < now := by omega
    have hce : ceilDiv (e - now) dayMs = 10 := by
      have hdiff : e - now = 10 * dayMs := by omega
      rw [hdiff]
      decide
    simp only [statusOf, hbe, Bool.false_eq_true, if_false, he]
    simp [hlt, hce]
  · intro hlt
    simp only [statusOf, hbe, Bool.false_eq_true, if_false, he]
    simp [hlt]

/-- Closed instance of C9: a 1month user whose expiry is exactly 10 days
ahead of now = 0 reports 10 remaining days and not expired; a user whose
expiry is in the past reports expired with 0 days; the handler leaves a
concrete store unchanged. -/
theorem statusOf_pure_projection_witness :
    (handleSubscription [⟨10, "1month", some 864000000, none, []⟩] 0 10).1 =
      [⟨10, "1month", some 864000000, none, []⟩]
    ∧ statusOf 0 ⟨10, "1month", some 864000000, none, []⟩ =
        some ⟨"1month", 10, 864000000, false⟩
    ∧ statusOf 1000 ⟨11, "3months", some 999, none, []⟩ =
        some ⟨"3months", 0, 999, true⟩ := by
  have h1 := statusOf_pure_projection [⟨10, "1month", some 864000000, none, []⟩]
      0 10 ⟨10, "1month", some 864000000, none, []⟩ 864000000 (by decide) rfl
  have h2 := statusOf_pure_projection [⟨11, "3months", some 999, none, []⟩]
      1000 11 ⟨11, "3months", some 999, none, []⟩ 999 (by decide) rfl
  exact ⟨h1.1, h1.2.2.1 (by decide), h2.2.2.2 (by decide)⟩
